import Mathlib

/-!
# Session publisher (`sessions/publisher.go`)

A shallow embedding of `publisher.publish`.  The function is sequential code
over a shared configuration, so the embedding passes the mutex state
explicitly and returns, next to the error value, the ordered log of the
effects the call performed (reads of the configuration, lock operations,
calls to collaborators).

Go `error` values produced by `fmt.Errorf` with `%v` carry nothing but their
message, so an error is modelled by its message and `nil` by `none`.
-/

namespace Sessions

/-! ## Data model -/

/-- The constant `sessionPayloadVersion` (publisher.go, line 14). -/
def sessionPayloadVersion : String := "1.0"

/-- The result of `json.Marshal`: a byte slice. -/
abbrev Bytes := List Nat

/-- The fields of `SessionTrackingConfiguration` that `publish` touches.
`mutex` is `true` while the lock is held. The logging sink `logf` shows up as
the `Event.logf` effect. -/
structure SessionTrackingConfiguration where
  Endpoint : String
  APIKey : String
  mutex : Bool
  deriving DecidableEq, Repr

/-- An `*http.Request` as far as `publish` builds it. `Header` lists the
`(name, value)` pairs in the order they were added. -/
structure Request where
  Method : String
  URL : String
  Header : List (String × String)
  Body : Bytes
  deriving DecidableEq, Repr

/-- An `*http.Response` as far as `publish` looks at it. `closeErr` is what
`res.Body.Close()` returns (`none` for `nil`). -/
structure Response where
  StatusCode : Int
  Status : String
  closeErr : Option String
  deriving DecidableEq, Repr

/-- The effects of one `publish` call, in program order. -/
inductive Event where
  /-- a read of `p.config.Endpoint` -/
  | readEndpoint
  /-- a read of `p.config.APIKey` -/
  | readAPIKey
  /-- the call `p.config.mutex.Lock()` returned -/
  | lock
  /-- the deferred call `p.config.mutex.Unlock()` -/
  | unlock
  /-- the call `makeSessionPayload(sessions, p.config)` -/
  | makePayload
  /-- the call `json.Marshal(payload)` -/
  | marshal
  /-- the call `http.NewRequest(...)` -/
  | newRequest
  /-- the call `p.client.Do(req)` -/
  | clientDo (req : Request)
  /-- the test `res.StatusCode != 202` -/
  | inspectStatus
  /-- the deferred call `res.Body.Close()` -/
  | bodyClose
  /-- the call `p.config.logf("%v", err)` -/
  | logf (msg : String)
  deriving DecidableEq, Repr

/-- The package-level functions `publish` calls that live outside
`publisher.go`, taken as parameters: `makeSessionPayload` (same package),
`json.Marshal`, the URL check inside `http.NewRequest` (`urlError u` is the
parse error for `u`, `none` when `u` parses) and `headers.PrefixedHeaders`
(a Go map, given as the list of its entries in iteration order). -/
structure Externals (Session Payload : Type) where
  makeSessionPayload : List Session → SessionTrackingConfiguration → Payload
  jsonMarshal : Payload → Except String Bytes
  urlError : String → Option String
  PrefixedHeaders : String → String → List (String × String)

/-- The struct `publisher` (publisher.go, lines 24-27); `client` is the
`httpClient` interface, its `Do` method given as a function. -/
structure publisher where
  config : SessionTrackingConfiguration
  client : Request → Except String Response

/-- What a `publish` call leaves behind: the returned error (`none` is `nil`),
the mutex state and the effect log. -/
structure Run where
  err : Option String
  mutex : Bool
  trace : List Event
  deriving DecidableEq, Repr

/-! ## Operations -/

/-- Message of the error returned at line 44. -/
def encodingError (cause : String) : String :=
  "bugsnag/sessions/publisher.publish unable to marshal json: " ++ cause

/-- Message of the error returned at line 48. -/
def requestError (cause : String) : String :=
  "bugsnag/sessions/publisher.publish unable to create request: " ++ cause

/-- Message of the error returned at line 55. -/
def transportError (cause : String) : String :=
  "bugsnag/sessions/publisher.publish unable to deliver session: " ++ cause

/-- Message of the error returned at line 63. -/
def unexpectedStatusError (status : String) : String :=
  "bugsnag/session.publish expected 202 response status, got HTTP " ++ status

/-- The method `sync.Mutex.Lock`: takes a free mutex; on a held mutex the
caller waits, which in a sequential run never ends (`none`). -/
def mutexLock : Bool → Option Bool
  | false => some true
  | true => none

/-- The method `sync.Mutex.Unlock`: frees a held mutex; unlocking a free
mutex is a fatal runtime error (`none`). -/
def mutexUnlock : Bool → Option Bool
  | true => some false
  | false => none

/-- The function `http.NewRequest`: fails when the URL does not parse,
otherwise yields a request with the given method, URL and body and an empty
header. -/
def NewRequest (urlError : String → Option String) (method url : String) (body : Bytes) :
    Except String Request :=
  match urlError url with
  | some e => .error e
  | none => .ok { Method := method, URL := url, Header := [], Body := body }

/-- The call `req.Header.Add(k, v)`: one more value under the name `k`. Names
are HTTP field names; `net/http` files a name under its canonical spelling,
which is the spelling the `headers` package uses. -/
def Request.addHeader (req : Request) (k v : String) : Request :=
  { req with Header := req.Header ++ [(k, v)] }

/-- The loop of lines 50-52. -/
def addHeaders (req : Request) (hs : List (String × String)) : Request :=
  hs.foldl (fun r kv => r.addHeader kv.1 kv.2) req

/-- The deferred function of lines 57-61: close the body, log a close error. -/
def closeBody (res : Response) : List Event :=
  match res.closeErr with
  | some e => [Event.bodyClose, Event.logf e]
  | none => [Event.bodyClose]

/-- Lines 41-65 of `publish`, the part that runs with the mutex held: the
returned error and the effects, the deferred body close included. -/
def publishLocked {Session Payload : Type} (ext : Externals Session Payload) (p : publisher)
    (sessions : List Session) : Option String × List Event :=
  let payload := ext.makeSessionPayload sessions p.config
  match ext.jsonMarshal payload with
  | .error err => (some (encodingError err), [Event.makePayload, Event.marshal])
  | .ok buf =>
    match NewRequest ext.urlError "POST" p.config.Endpoint buf with
    | .error err =>
      (some (requestError err),
        [Event.makePayload, Event.marshal, Event.readEndpoint, Event.newRequest])
    | .ok req0 =>
      let req := addHeaders req0 (ext.PrefixedHeaders p.config.APIKey sessionPayloadVersion)
      match p.client req with
      | .error err =>
        (some (transportError err),
          [Event.makePayload, Event.marshal, Event.readEndpoint, Event.newRequest,
            Event.readAPIKey, Event.clientDo req])
      | .ok res =>
        let ret := if res.StatusCode ≠ 202 then some (unexpectedStatusError res.Status) else none
        (ret,
          [Event.makePayload, Event.marshal, Event.readEndpoint, Event.newRequest,
            Event.readAPIKey, Event.clientDo req, Event.inspectStatus] ++ closeBody res)

/-- The method `publisher.publish` (publisher.go, lines 31-66). `none` means
the call does not return (it waits for a held mutex). -/
def publish {Session Payload : Type} (ext : Externals Session Payload) (p : publisher)
    (sessions : List Session) : Option Run :=
  if p.config.Endpoint = "" then
    some { err := none, mutex := p.config.mutex, trace := [Event.readEndpoint] }
  else
    match mutexLock p.config.mutex with
    | none => none
    | some held =>
      let r := publishLocked ext p sessions
      match mutexUnlock held with
      | none => none
      | some m =>
        some { err := r.1, mutex := m,
               trace := [Event.readEndpoint, Event.lock] ++ r.2 ++ [Event.unlock] }

/-! ## Observations on effect logs -/

/-- Number of `p.client.Do` calls in a log. -/
def doCalls : List Event → Nat
  | [] => 0
  | Event.clientDo _ :: es => doCalls es + 1
  | _ :: es => doCalls es

/-- Number of occurrences of an event in a log. -/
def occurrences (e : Event) (tr : List Event) : Nat :=
  tr.count e

/-- Number of calls of the logging sink in a log. -/
def logCalls : List Event → Nat
  | [] => 0
  | Event.logf _ :: es => logCalls es + 1
  | _ :: es => logCalls es

/-- Replays the lock operations of a log on a mutex in state `m`: the final
state, or `none` when some `lock` meets a held mutex or some `unlock` a free
one. -/
def replayMutex : Bool → List Event → Option Bool
  | m, [] => some m
  | m, Event.lock :: es => (mutexLock m).bind (fun m2 => replayMutex m2 es)
  | m, Event.unlock :: es => (mutexUnlock m).bind (fun m2 => replayMutex m2 es)
  | m, _ :: es => replayMutex m es

/-- Whether every read of `Endpoint` or `APIKey` and every payload
construction in a log happens while the call holds the mutex (`held` is the
state at the start of the log). -/
def guardedReads : Bool → List Event → Bool
  | _, [] => true
  | _, Event.lock :: es => guardedReads true es
  | _, Event.unlock :: es => guardedReads false es
  | held, Event.readEndpoint :: es => held && guardedReads held es
  | held, Event.readAPIKey :: es => held && guardedReads held es
  | held, Event.makePayload :: es => held && guardedReads held es
  | held, _ :: es => guardedReads held es

/-! ## The payload and the error taxonomy as the specification words them -/

/-- Modelled from the spec: the payload type built by `makeSessionPayload` is
declared outside `publisher.go`. Section 4.1, step 3: "a fixed payload-format
version string, batch-level metadata, and the batch of sessions as-is". -/
structure sessionPayload (Session Meta : Type) where
  version : String
  metadata : Meta
  sessions : List Session
  deriving DecidableEq, Repr

/-- Modelled from the spec: `makeSessionPayload` is defined outside
`publisher.go`. Section 4.1, step 3: the version is the fixed string `"1.0"`,
the metadata is taken from the configuration (`notifier`, opaque here), and
the batch is stored unchanged. -/
def makeSessionPayload {Session Meta : Type} (notifier : SessionTrackingConfiguration → Meta)
    (sessions : List Session) (config : SessionTrackingConfiguration) :
    sessionPayload Session Meta :=
  { version := sessionPayloadVersion, metadata := notifier config, sessions := sessions }

/-- The four failure kinds of section 7 of the specification. -/
inductive ErrorKind where
  | encoding
  | requestConstruction
  | transport
  | unexpectedStatus
  deriving DecidableEq, Repr

/-- A failure as section 9 of the specification words it: a kind together with
the text of the underlying cause (for `unexpectedStatus`, the status text). -/
structure PublishError where
  kind : ErrorKind
  detail : String
  deriving DecidableEq, Repr

/-- The Go error message `publish` returns for a failure. -/
def PublishError.message (e : PublishError) : String :=
  match e.kind with
  | ErrorKind.encoding => encodingError e.detail
  | ErrorKind.requestConstruction => requestError e.detail
  | ErrorKind.transport => transportError e.detail
  | ErrorKind.unexpectedStatus => unexpectedStatusError e.detail

/-- The outcome as the specification words it (section 4.1, steps 4 to 8):
the first step that fails in the order serialize, construct request, transmit,
check status; `none` when all four succeed. -/
def firstFailure (serialized : Except String Bytes) (construct : Bytes → Except String Request)
    (transmit : Request → Except String Response) : Option PublishError :=
  match serialized with
  | .error e => some { kind := ErrorKind.encoding, detail := e }
  | .ok buf =>
    match construct buf with
    | .error e => some { kind := ErrorKind.requestConstruction, detail := e }
    | .ok req =>
      match transmit req with
      | .error e => some { kind := ErrorKind.transport, detail := e }
      | .ok res =>
        if res.StatusCode = 202 then none
        else some { kind := ErrorKind.unexpectedStatus, detail := res.Status }

/-! ## Concrete collaborators used to instantiate the theorems -/

/-- Sample externals over the specification's payload: sessions are numbers,
there is no metadata, only version `"1.0"` serializes (to the batch itself),
and the URL `":"` does not parse (Go reports `missing protocol scheme`). -/
def specExternals : Externals Nat (sessionPayload Nat Unit) where
  makeSessionPayload := makeSessionPayload (fun _ => ())
  jsonMarshal := fun pl =>
    if pl.version = "1.0" then .ok pl.sessions else .error "unsupported version"
  urlError := fun u => if u = ":" then some "parse \":\": missing protocol scheme" else none
  PrefixedHeaders := fun k v => [("Bugsnag-Api-Key", k), ("Bugsnag-Payload-Version", v)]

/-- The decoder matching `specExternals.jsonMarshal`. -/
def specDecode (b : Bytes) : Option (sessionPayload Nat Unit) :=
  some { version := "1.0", metadata := (), sessions := b }

/-- Sample externals: sessions are numbers, the payload is the batch, a batch
of more than three sessions does not serialize, and the URL `":"` does not
parse (Go reports `missing protocol scheme`). -/
def sampleExternals : Externals Nat (List Nat) where
  makeSessionPayload := fun ss _ => ss
  jsonMarshal := fun pl => if pl.length ≤ 3 then .ok pl else .error "unsupported value"
  urlError := fun u => if u = ":" then some "parse \":\": missing protocol scheme" else none
  PrefixedHeaders := fun k v => [("Bugsnag-Api-Key", k), ("Bugsnag-Payload-Version", v)]

/-- A client stub answering every request with the given response. -/
def stubClient (res : Response) : Request → Except String Response :=
  fun _ => .ok res

/-- A client stub failing every request with the given error. -/
def failingClient (e : String) : Request → Except String Response :=
  fun _ => .error e

/-- Replaces every response of a client by the same response with a body
that closes cleanly. -/
def withCleanClose (client : Request → Except String Response) :
    Request → Except String Response :=
  fun req => (client req).map (fun res => { res with closeErr := none })

/-- A configuration with the given endpoint, the key `"k"` and a free mutex. -/
def sampleConfig (endpoint : String) : SessionTrackingConfiguration :=
  { Endpoint := endpoint, APIKey := "k", mutex := false }

/-- The response `202 Accepted` whose body closes cleanly. -/
def accepted : Response :=
  { StatusCode := 202, Status := "202 Accepted", closeErr := none }

/-- The response `500 Internal Server Error` whose body fails to close. -/
def serverError : Response :=
  { StatusCode := 500, Status := "500 Internal Server Error", closeErr := some "close failed" }

/-! ## Shared lemmas -/

theorem encodingError_ne_requestError (a b : String) : encodingError a ≠ requestError b := by
  intro h
  have h2 := congrArg String.data h
  simp [encodingError, requestError, String.data_append] at h2

theorem encodingError_ne_transportError (a b : String) :
    encodingError a ≠ transportError b := by
  intro h
  have h2 := congrArg String.data h
  simp [encodingError, transportError, String.data_append] at h2

theorem encodingError_ne_unexpectedStatusError (a b : String) :
    encodingError a ≠ unexpectedStatusError b := by
  intro h
  have h2 := congrArg String.data h
  simp [encodingError, unexpectedStatusError, String.data_append] at h2

theorem requestError_ne_transportError (a b : String) : requestError a ≠ transportError b := by
  intro h
  have h2 := congrArg String.data h
  simp [requestError, transportError, String.data_append] at h2

theorem requestError_ne_unexpectedStatusError (a b : String) :
    requestError a ≠ unexpectedStatusError b := by
  intro h
  have h2 := congrArg String.data h
  simp [requestError, unexpectedStatusError, String.data_append] at h2

theorem transportError_ne_unexpectedStatusError (a b : String) :
    transportError a ≠ unexpectedStatusError b := by
  intro h
  have h2 := congrArg String.data h
  simp [transportError, unexpectedStatusError, String.data_append] at h2

/-- With a non-empty endpoint and a free mutex, `publish` is `publishLocked`
wrapped in one lock and one unlock. -/
theorem publish_of_enabled {Session Payload : Type} (ext : Externals Session Payload)
    (p : publisher) (sessions : List Session)
    (hne : p.config.Endpoint ≠ "") (hfree : p.config.mutex = false) :
    publish ext p sessions =
      some { err := (publishLocked ext p sessions).1, mutex := false,
             trace := [Event.readEndpoint, Event.lock] ++ (publishLocked ext p sessions).2
                        ++ [Event.unlock] } := by
  simp [publish, hne, hfree, mutexLock, mutexUnlock]

/-- `publishLocked` when serialization, request construction and transmission
all succeed. -/
theorem publishLocked_of_response {Session Payload : Type} (ext : Externals Session Payload)
    (p : publisher) (sessions : List Session) (buf : Bytes) (req0 : Request) (res : Response)
    (hmarshal : ext.jsonMarshal (ext.makeSessionPayload sessions p.config) = .ok buf)
    (hreq : NewRequest ext.urlError "POST" p.config.Endpoint buf = .ok req0)
    (hdo : p.client (addHeaders req0 (ext.PrefixedHeaders p.config.APIKey sessionPayloadVersion))
            = .ok res) :
    publishLocked ext p sessions =
      (if res.StatusCode ≠ 202 then some (unexpectedStatusError res.Status) else none,
        [Event.makePayload, Event.marshal, Event.readEndpoint, Event.newRequest,
          Event.readAPIKey,
          Event.clientDo
            (addHeaders req0 (ext.PrefixedHeaders p.config.APIKey sessionPayloadVersion)),
          Event.inspectStatus] ++ closeBody res) := by
  simp [publishLocked, hmarshal, hreq, hdo]

/-- The four ways through `publishLocked`: serialization fails, request
construction fails, transmission fails, or a response arrives. -/
theorem publishLocked_cases {Session Payload : Type} (ext : Externals Session Payload)
    (p : publisher) (sessions : List Session) :
    (∃ e, ext.jsonMarshal (ext.makeSessionPayload sessions p.config) = .error e ∧
      publishLocked ext p sessions =
        (some (encodingError e), [Event.makePayload, Event.marshal])) ∨
    (∃ buf e, ext.jsonMarshal (ext.makeSessionPayload sessions p.config) = .ok buf ∧
      NewRequest ext.urlError "POST" p.config.Endpoint buf = .error e ∧
      publishLocked ext p sessions =
        (some (requestError e),
          [Event.makePayload, Event.marshal, Event.readEndpoint, Event.newRequest])) ∨
    (∃ buf req0 e, ext.jsonMarshal (ext.makeSessionPayload sessions p.config) = .ok buf ∧
      NewRequest ext.urlError "POST" p.config.Endpoint buf = .ok req0 ∧
      p.client (addHeaders req0 (ext.PrefixedHeaders p.config.APIKey sessionPayloadVersion))
        = .error e ∧
      publishLocked ext p sessions =
        (some (transportError e),
          [Event.makePayload, Event.marshal, Event.readEndpoint, Event.newRequest,
            Event.readAPIKey,
            Event.clientDo
              (addHeaders req0 (ext.PrefixedHeaders p.config.APIKey sessionPayloadVersion))])) ∨
    (∃ buf req0 res, ext.jsonMarshal (ext.makeSessionPayload sessions p.config) = .ok buf ∧
      NewRequest ext.urlError "POST" p.config.Endpoint buf = .ok req0 ∧
      p.client (addHeaders req0 (ext.PrefixedHeaders p.config.APIKey sessionPayloadVersion))
        = .ok res ∧
      publishLocked ext p sessions =
        (if res.StatusCode ≠ 202 then some (unexpectedStatusError res.Status) else none,
          [Event.makePayload, Event.marshal, Event.readEndpoint, Event.newRequest,
            Event.readAPIKey,
            Event.clientDo
              (addHeaders req0 (ext.PrefixedHeaders p.config.APIKey sessionPayloadVersion)),
            Event.inspectStatus] ++ closeBody res)) := by
  cases h1 : ext.jsonMarshal (ext.makeSessionPayload sessions p.config) with
  | error e => exact Or.inl ⟨e, rfl, by simp [publishLocked, h1]⟩
  | ok buf =>
    cases h2 : NewRequest ext.urlError "POST" p.config.Endpoint buf with
    | error e => exact Or.inr (Or.inl ⟨buf, e, rfl, h2, by simp [publishLocked, h1, h2]⟩)
    | ok req0 =>
      cases h3 : p.client
          (addHeaders req0 (ext.PrefixedHeaders p.config.APIKey sessionPayloadVersion)) with
      | error e =>
        exact Or.inr (Or.inr (Or.inl ⟨buf, req0, e, rfl, h2, h3,
          by simp [publishLocked, h1, h2, h3]⟩))
      | ok res =>
        exact Or.inr (Or.inr (Or.inr ⟨buf, req0, res, rfl, h2, h3,
          by simp [publishLocked, h1, h2, h3]⟩))

/-- The log of the deferred body close holds no lock operation, no read of
the configuration and no collaborator call other than the close and the
logging sink. -/
theorem closeBody_cases (res : Response) :
    (res.closeErr = none ∧ closeBody res = [Event.bodyClose]) ∨
    (∃ c, res.closeErr = some c ∧ closeBody res = [Event.bodyClose, Event.logf c]) := by
  cases h : res.closeErr with
  | none => exact Or.inl ⟨rfl, by simp [closeBody, h]⟩
  | some c => exact Or.inr ⟨c, rfl, by simp [closeBody, h]⟩

/-- The header loop appends the derived pairs and leaves the rest of the
request alone. -/
theorem addHeaders_eq (req : Request) (hs : List (String × String)) :
    addHeaders req hs = { req with Header := req.Header ++ hs } := by
  induction hs generalizing req with
  | nil => simp [addHeaders]
  | cons kv rest ih =>
    have h := ih (req.addHeader kv.1 kv.2)
    simp only [addHeaders, List.foldl_cons] at h ⊢
    rw [h]
    simp [Request.addHeader]

/-- A request built by `NewRequest` carries the given method, URL and body and
no header. -/
theorem NewRequest_ok {urlError : String → Option String} {method url : String} {body : Bytes}
    {req : Request} (h : NewRequest urlError method url body = .ok req) :
    req = { Method := method, URL := url, Header := [], Body := body } := by
  unfold NewRequest at h
  cases hu : urlError url with
  | some e => simp [hu] at h
  | none =>
    simp [hu] at h
    exact h.symm

/-- Replaying a log made of two parts replays the first, then the second. -/
theorem replayMutex_append (m : Bool) (xs ys : List Event) :
    replayMutex m (xs ++ ys) = (replayMutex m xs).bind (fun m2 => replayMutex m2 ys) := by
  induction xs generalizing m with
  | nil => simp [replayMutex]
  | cons x rest ih =>
    cases x <;> simp [replayMutex, ih] <;> cases m <;> simp [mutexLock, mutexUnlock]

/-- A returning `publish` call on a non-empty endpoint found the mutex free. -/
theorem mutex_free_of_publish {Session Payload : Type} (ext : Externals Session Payload)
    (p : publisher) (sessions : List Session) (run : Run)
    (hne : p.config.Endpoint ≠ "") (hrun : publish ext p sessions = some run) :
    p.config.mutex = false := by
  cases hm : p.config.mutex with
  | false => rfl
  | true => simp [publish, hne, hm, mutexLock] at hrun

/-- Every request a returning `publish` call hands to `Do` is the request
built by `NewRequest` with the derived headers added. -/
theorem handed_request {Session Payload : Type} (ext : Externals Session Payload)
    (p : publisher) (sessions : List Session) (run : Run) (req : Request)
    (hrun : publish ext p sessions = some run) (hdo : Event.clientDo req ∈ run.trace) :
    ∃ buf, ext.jsonMarshal (ext.makeSessionPayload sessions p.config) = .ok buf ∧
      req = { Method := "POST", URL := p.config.Endpoint,
              Header := ext.PrefixedHeaders p.config.APIKey sessionPayloadVersion,
              Body := buf } := by
  by_cases he : p.config.Endpoint = ""
  · simp [publish, he] at hrun
    subst hrun
    simp at hdo
  · have hfree := mutex_free_of_publish ext p sessions run he hrun
    rw [publish_of_enabled ext p sessions he hfree] at hrun
    simp only [Option.some.injEq] at hrun
    subst hrun
    rcases publishLocked_cases ext p sessions with ⟨e, -, h⟩ | ⟨buf, e, -, -, h⟩ |
      ⟨buf, req0, e, h1, h2, -, h⟩ | ⟨buf, req0, res, h1, h2, -, h⟩
    · rw [h] at hdo; simp at hdo
    · rw [h] at hdo; simp at hdo
    · rw [h] at hdo
      simp at hdo
      refine ⟨buf, h1, ?_⟩
      rw [hdo, addHeaders_eq, NewRequest_ok h2]
      simp
    · rw [h] at hdo
      refine ⟨buf, h1, ?_⟩
      have hreq : req = addHeaders req0
          (ext.PrefixedHeaders p.config.APIKey sessionPayloadVersion) := by
        rcases closeBody_cases res with ⟨-, hc⟩ | ⟨c, -, hc⟩ <;> rw [hc] at hdo <;>
          simpa using hdo
      rw [hreq, addHeaders_eq, NewRequest_ok h2]
      simp

/-! ## Claims -/

/-- C1: when the configuration's Endpoint is the empty string, `publish`
returns nil for every batch (the empty one included) and `Do` is invoked zero
times. -/
theorem publish_disabled_endpoint {Session Payload : Type} (ext : Externals Session Payload)
    (p : publisher) (sessions : List Session) (h : p.config.Endpoint = "") :
    ∃ run, publish ext p sessions = some run ∧ run.err = none ∧ doCalls run.trace = 0 := by
  refine ⟨{ err := none, mutex := p.config.mutex, trace := [Event.readEndpoint] }, ?_, rfl, rfl⟩
  simp [publish, h]

/-- Witness of C1: an empty endpoint and the empty batch. -/
theorem publish_disabled_endpoint_witness :
    (sampleConfig "").Endpoint = "" ∧
    ∃ run, publish sampleExternals { config := sampleConfig "", client := stubClient serverError }
        ([] : List Nat) = some run ∧ run.err = none ∧ doCalls run.trace = 0 :=
  ⟨rfl, publish_disabled_endpoint sampleExternals
    { config := sampleConfig "", client := stubClient serverError } [] rfl⟩

/-- C2: with a non-empty Endpoint, when serialization, request construction
and transmission succeed and the Transport answers with status code `c` and
status text `s`, `publish` returns nil exactly when `c = 202`, and for every
other `c` it returns the unexpected-status error carrying `s`, which is no
error of another kind. -/
theorem publish_status_classification {Session Payload : Type}
    (ext : Externals Session Payload) (p : publisher) (sessions : List Session)
    (buf : Bytes) (req0 : Request) (res : Response)
    (hne : p.config.Endpoint ≠ "") (hfree : p.config.mutex = false)
    (hmarshal : ext.jsonMarshal (ext.makeSessionPayload sessions p.config) = .ok buf)
    (hreq : NewRequest ext.urlError "POST" p.config.Endpoint buf = .ok req0)
    (hdo : p.client (addHeaders req0 (ext.PrefixedHeaders p.config.APIKey sessionPayloadVersion))
            = .ok res) :
    ∃ run, publish ext p sessions = some run ∧
      (run.err = none ↔ res.StatusCode = 202) ∧
      (res.StatusCode ≠ 202 →
        run.err = some ("bugsnag/session.publish expected 202 response status, got HTTP "
                          ++ res.Status) ∧
        ∀ cause, run.err ≠ some (encodingError cause) ∧ run.err ≠ some (requestError cause) ∧
          run.err ≠ some (transportError cause)) := by
  refine ⟨_, publish_of_enabled ext p sessions hne hfree, ?_, ?_⟩
  · rw [publishLocked_of_response ext p sessions buf req0 res hmarshal hreq hdo]
    by_cases hc : res.StatusCode = 202 <;> simp [hc]
  · intro hc
    rw [publishLocked_of_response ext p sessions buf req0 res hmarshal hreq hdo]
    refine ⟨by simp [hc, unexpectedStatusError], fun cause => ?_⟩
    simp only [hc, ne_eq, not_false_eq_true, if_true, Option.some.injEq]
    exact ⟨fun h => encodingError_ne_unexpectedStatusError _ _ h.symm,
      fun h => requestError_ne_unexpectedStatusError _ _ h.symm,
      fun h => transportError_ne_unexpectedStatusError _ _ h.symm⟩

/-- Witness of C2: a stub answering `500 Internal Server Error`. -/
theorem publish_status_classification_witness :
    ∃ run, publish sampleExternals
        { config := sampleConfig "https://sessions.example", client := stubClient serverError }
        [1, 2] = some run ∧
      (run.err = none ↔ serverError.StatusCode = 202) ∧
      (serverError.StatusCode ≠ 202 →
        run.err = some ("bugsnag/session.publish expected 202 response status, got HTTP "
                          ++ serverError.Status) ∧
        ∀ cause, run.err ≠ some (encodingError cause) ∧ run.err ≠ some (requestError cause) ∧
          run.err ≠ some (transportError cause)) :=
  publish_status_classification sampleExternals
    { config := sampleConfig "https://sessions.example", client := stubClient serverError }
    [1, 2] [1, 2]
    { Method := "POST", URL := "https://sessions.example", Header := [], Body := [1, 2] }
    serverError (by decide) rfl rfl (by simp [NewRequest, sampleExternals, sampleConfig]) rfl

/-- C3: with a non-empty Endpoint, when serialization and request
construction succeed and `Do` returns an error `e`, `publish` returns the
transport error wrapping `e`, `Do` has been invoked exactly once, and no
response body is closed and no status inspected. -/
theorem publish_transport_failure {Session Payload : Type}
    (ext : Externals Session Payload) (p : publisher) (sessions : List Session)
    (buf : Bytes) (req0 : Request) (e : String)
    (hne : p.config.Endpoint ≠ "") (hfree : p.config.mutex = false)
    (hmarshal : ext.jsonMarshal (ext.makeSessionPayload sessions p.config) = .ok buf)
    (hreq : NewRequest ext.urlError "POST" p.config.Endpoint buf = .ok req0)
    (hdo : p.client (addHeaders req0 (ext.PrefixedHeaders p.config.APIKey sessionPayloadVersion))
            = .error e) :
    ∃ run, publish ext p sessions = some run ∧
      run.err = some ("bugsnag/sessions/publisher.publish unable to deliver session: " ++ e) ∧
      doCalls run.trace = 1 ∧
      occurrences Event.bodyClose run.trace = 0 ∧
      occurrences Event.inspectStatus run.trace = 0 := by
  refine ⟨_, publish_of_enabled ext p sessions hne hfree, ?_⟩
  simp [publishLocked, hmarshal, hreq, hdo, transportError, doCalls, occurrences]

/-- Witness of C3: a stub failing with `connection refused`. -/
theorem publish_transport_failure_witness :
    ∃ run, publish sampleExternals
        { config := sampleConfig "https://sessions.example",
          client := failingClient "connection refused" }
        [1, 2] = some run ∧
      run.err = some ("bugsnag/sessions/publisher.publish unable to deliver session: "
                        ++ "connection refused") ∧
      doCalls run.trace = 1 ∧
      occurrences Event.bodyClose run.trace = 0 ∧
      occurrences Event.inspectStatus run.trace = 0 :=
  publish_transport_failure sampleExternals
    { config := sampleConfig "https://sessions.example",
      client := failingClient "connection refused" }
    [1, 2] [1, 2]
    { Method := "POST", URL := "https://sessions.example", Header := [], Body := [1, 2] }
    "connection refused" (by decide) rfl rfl
    (by simp [NewRequest, sampleExternals, sampleConfig]) rfl

/-- C7: with a non-empty Endpoint, when serializing the payload fails with
cause `e`, `publish` returns the encoding error wrapping `e`, no request is
constructed and `Do` is invoked zero times. -/
theorem publish_marshal_failure {Session Payload : Type}
    (ext : Externals Session Payload) (p : publisher) (sessions : List Session) (e : String)
    (hne : p.config.Endpoint ≠ "") (hfree : p.config.mutex = false)
    (hmarshal : ext.jsonMarshal (ext.makeSessionPayload sessions p.config) = .error e) :
    ∃ run, publish ext p sessions = some run ∧
      run.err = some ("bugsnag/sessions/publisher.publish unable to marshal json: " ++ e) ∧
      occurrences Event.newRequest run.trace = 0 ∧
      doCalls run.trace = 0 := by
  refine ⟨_, publish_of_enabled ext p sessions hne hfree, ?_⟩
  simp [publishLocked, hmarshal, encodingError, doCalls, occurrences]

/-- Witness of C7: a batch of four sessions, which the sample serializer
rejects. -/
theorem publish_marshal_failure_witness :
    ∃ run, publish sampleExternals
        { config := sampleConfig "https://sessions.example", client := stubClient accepted }
        [1, 2, 3, 4] = some run ∧
      run.err = some ("bugsnag/sessions/publisher.publish unable to marshal json: "
                        ++ "unsupported value") ∧
      occurrences Event.newRequest run.trace = 0 ∧
      doCalls run.trace = 0 :=
  publish_marshal_failure sampleExternals
    { config := sampleConfig "https://sessions.example", client := stubClient accepted }
    [1, 2, 3, 4] "unsupported value" (by decide) rfl rfl

/-- C4: for every `publish` call entered with the configuration lock free,
whatever the exit path, the lock is acquired at most once, released as often
as acquired, every acquisition meets a free lock and is followed by its
release before the call returns, the lock is free on return, so that `Lock`
succeeds on it and a subsequent `publish` call returns as well. -/
theorem publish_lock_discipline {Session Payload : Type}
    (ext : Externals Session Payload) (p : publisher) (sessions : List Session)
    (hfree : p.config.mutex = false) :
    ∃ run, publish ext p sessions = some run ∧
      occurrences Event.lock run.trace ≤ 1 ∧
      occurrences Event.unlock run.trace = occurrences Event.lock run.trace ∧
      replayMutex false run.trace = some false ∧
      run.mutex = false ∧ mutexLock run.mutex = some true ∧
      ∀ (S2 P2 : Type) (ext2 : Externals S2 P2) (p2 : publisher) (sessions2 : List S2),
        p2.config.mutex = run.mutex → ∃ run2, publish ext2 p2 sessions2 = some run2 := by
  have hnext : ∀ (S2 P2 : Type) (ext2 : Externals S2 P2) (p2 : publisher) (sessions2 : List S2),
      p2.config.mutex = false → ∃ run2, publish ext2 p2 sessions2 = some run2 := by
    intro S2 P2 ext2 p2 sessions2 h2
    by_cases he : p2.config.Endpoint = ""
    · exact ⟨_, by simp [publish, he]; rfl⟩
    · exact ⟨_, publish_of_enabled ext2 p2 sessions2 he h2⟩
  by_cases he : p.config.Endpoint = ""
  · refine ⟨{ err := none, mutex := p.config.mutex, trace := [Event.readEndpoint] },
      by simp [publish, he], ?_⟩
    simp [occurrences, replayMutex, hfree, mutexLock]
    exact hnext
  · refine ⟨_, publish_of_enabled ext p sessions he hfree, ?_⟩
    have key : occurrences Event.lock (publishLocked ext p sessions).2 = 0 ∧
        occurrences Event.unlock (publishLocked ext p sessions).2 = 0 ∧
        replayMutex true (publishLocked ext p sessions).2 = some true := by
      rcases publishLocked_cases ext p sessions with ⟨e, -, h⟩ | ⟨buf, e, -, -, h⟩ |
        ⟨buf, req0, e, -, -, -, h⟩ | ⟨buf, req0, res, -, -, -, h⟩
      · rw [h]; simp [occurrences, replayMutex]
      · rw [h]; simp [occurrences, replayMutex]
      · rw [h]; simp [occurrences, replayMutex]
      · rw [h]
        rcases closeBody_cases res with ⟨-, hc⟩ | ⟨c, -, hc⟩ <;> rw [hc] <;>
          simp [occurrences, replayMutex]
    obtain ⟨k1, k2, k3⟩ := key
    simp only [occurrences] at k1 k2
    refine ⟨?_, ?_, ?_, rfl, rfl, hnext⟩
    · simp [occurrences, k1]
    · simp [occurrences, k1, k2]
    · simp [replayMutex, mutexLock, replayMutex_append, k3, mutexUnlock]

/-- Witness of C4: a transport failure on a configuration whose lock is free. -/
theorem publish_lock_discipline_witness :
    ∃ run, publish sampleExternals
        { config := sampleConfig "https://sessions.example",
          client := failingClient "connection refused" }
        [1, 2] = some run ∧
      occurrences Event.lock run.trace ≤ 1 ∧
      occurrences Event.unlock run.trace = occurrences Event.lock run.trace ∧
      replayMutex false run.trace = some false ∧
      run.mutex = false ∧ mutexLock run.mutex = some true ∧
      ∀ (S2 P2 : Type) (ext2 : Externals S2 P2) (p2 : publisher) (sessions2 : List S2),
        p2.config.mutex = run.mutex → ∃ run2, publish ext2 p2 sessions2 = some run2 :=
  publish_lock_discipline sampleExternals
    { config := sampleConfig "https://sessions.example",
      client := failingClient "connection refused" }
    [1, 2] rfl

/-- C5: every request `publish` hands to the Transport carries exactly the
pairs `PrefixedHeaders(config.APIKey, "1.0")` returns, each derived pair once
and nothing else, and two batches under the same configuration give the same
header set. -/
theorem publish_request_headers {Session Payload : Type}
    (ext : Externals Session Payload) (p : publisher) (sessions : List Session)
    (run : Run) (req : Request)
    (hrun : publish ext p sessions = some run) (hdo : Event.clientDo req ∈ run.trace) :
    (∀ kv, kv ∈ req.Header ↔ kv ∈ ext.PrefixedHeaders p.config.APIKey "1.0") ∧
    req.Header.Perm (ext.PrefixedHeaders p.config.APIKey "1.0") ∧
    ∀ (sessions2 : List Session) (run2 : Run) (req2 : Request),
      publish ext p sessions2 = some run2 → Event.clientDo req2 ∈ run2.trace →
        ∀ kv, kv ∈ req2.Header ↔ kv ∈ req.Header := by
  obtain ⟨buf, -, hreq⟩ := handed_request ext p sessions run req hrun hdo
  have hv : sessionPayloadVersion = "1.0" := rfl
  refine ⟨?_, ?_, ?_⟩
  · intro kv; rw [hreq, hv]
  · rw [hreq, hv]
  · intro sessions2 run2 req2 hrun2 hdo2 kv
    obtain ⟨buf2, -, hreq2⟩ := handed_request ext p sessions2 run2 req2 hrun2 hdo2
    rw [hreq, hreq2]

/-- Witness of C5: the request of a delivered batch `[1, 2]`. -/
theorem publish_request_headers_witness :
    ∃ run req, publish sampleExternals
        { config := sampleConfig "https://sessions.example", client := stubClient accepted }
        [1, 2] = some run ∧ Event.clientDo req ∈ run.trace ∧
      (∀ kv, kv ∈ req.Header ↔ kv ∈ sampleExternals.PrefixedHeaders "k" "1.0") ∧
      req.Header.Perm (sampleExternals.PrefixedHeaders "k" "1.0") ∧
      ∀ (sessions2 : List Nat) (run2 : Run) (req2 : Request),
        publish sampleExternals
            { config := sampleConfig "https://sessions.example", client := stubClient accepted }
            sessions2 = some run2 →
          Event.clientDo req2 ∈ run2.trace → ∀ kv, kv ∈ req2.Header ↔ kv ∈ req.Header := by
  have h1 := publish_of_enabled sampleExternals
    { config := sampleConfig "https://sessions.example", client := stubClient accepted }
    [1, 2] (by decide) rfl
  have h2 : Event.clientDo
      { Method := "POST", URL := "https://sessions.example",
        Header := [("Bugsnag-Api-Key", "k"), ("Bugsnag-Payload-Version", "1.0")],
        Body := [1, 2] } ∈
      ([Event.readEndpoint, Event.lock] ++ (publishLocked sampleExternals
        { config := sampleConfig "https://sessions.example", client := stubClient accepted }
        [1, 2]).2 ++ [Event.unlock]) := by
    simp [publishLocked, sampleExternals, NewRequest, sampleConfig, stubClient, addHeaders,
      Request.addHeader, sessionPayloadVersion]
  exact ⟨_, _, h1, h2, publish_request_headers sampleExternals
    { config := sampleConfig "https://sessions.example", client := stubClient accepted }
    [1, 2] _ _ h1 h2⟩

/-- C8: in every `publish` call in which the Transport returns a response,
the body is closed exactly once before the call returns, on the 202 path and
on the other; a close error `c` goes to the logging sink exactly once and the
sink sees nothing else; a clean close leaves the sink untouched; and the
returned value depends on the status code alone, being the value returned
when the same response closes cleanly. -/
theorem publish_response_close {Session Payload : Type}
    (ext : Externals Session Payload) (p : publisher) (sessions : List Session)
    (buf : Bytes) (req0 : Request) (res : Response)
    (hne : p.config.Endpoint ≠ "") (hfree : p.config.mutex = false)
    (hmarshal : ext.jsonMarshal (ext.makeSessionPayload sessions p.config) = .ok buf)
    (hreq : NewRequest ext.urlError "POST" p.config.Endpoint buf = .ok req0)
    (hdo : p.client (addHeaders req0 (ext.PrefixedHeaders p.config.APIKey sessionPayloadVersion))
            = .ok res) :
    ∃ run, publish ext p sessions = some run ∧
      occurrences Event.bodyClose run.trace = 1 ∧
      (∀ c, res.closeErr = some c →
        occurrences (Event.logf c) run.trace = 1 ∧ logCalls run.trace = 1) ∧
      (res.closeErr = none → logCalls run.trace = 0) ∧
      run.err = (if res.StatusCode = 202 then none
                 else some ("bugsnag/session.publish expected 202 response status, got HTTP "
                              ++ res.Status)) ∧
      ∃ clean, publish ext { config := p.config, client := withCleanClose p.client } sessions
          = some clean ∧ clean.err = run.err ∧ logCalls clean.trace = 0 := by
  have hclean : (withCleanClose p.client)
      (addHeaders req0 (ext.PrefixedHeaders p.config.APIKey sessionPayloadVersion))
        = .ok { res with closeErr := none } := by
    simp [withCleanClose, hdo, Except.map]
  refine ⟨_, publish_of_enabled ext p sessions hne hfree, ?_, ?_, ?_, ?_,
    _, publish_of_enabled ext { config := p.config, client := withCleanClose p.client }
      sessions hne hfree, ?_, ?_⟩
  · rw [publishLocked_of_response ext p sessions buf req0 res hmarshal hreq hdo]
    rcases closeBody_cases res with ⟨-, hc⟩ | ⟨c, -, hc⟩ <;> rw [hc] <;> simp [occurrences]
  · intro c hcl
    rw [publishLocked_of_response ext p sessions buf req0 res hmarshal hreq hdo]
    simp [closeBody, hcl, occurrences, logCalls]
  · intro hcl
    rw [publishLocked_of_response ext p sessions buf req0 res hmarshal hreq hdo]
    simp [closeBody, hcl, logCalls]
  · rw [publishLocked_of_response ext p sessions buf req0 res hmarshal hreq hdo]
    by_cases hs : res.StatusCode = 202 <;> simp [hs, unexpectedStatusError]
  · rw [publishLocked_of_response ext p sessions buf req0 res hmarshal hreq hdo,
      publishLocked_of_response ext { config := p.config, client := withCleanClose p.client }
        sessions buf req0 { res with closeErr := none } hmarshal hreq hclean]
  · rw [publishLocked_of_response ext { config := p.config, client := withCleanClose p.client }
        sessions buf req0 { res with closeErr := none } hmarshal hreq hclean]
    simp [closeBody, logCalls]

/-- Witness of C8: a `500` response whose body fails to close. -/
theorem publish_response_close_witness :
    ∃ run, publish sampleExternals
        { config := sampleConfig "https://sessions.example", client := stubClient serverError }
        [1, 2] = some run ∧
      occurrences Event.bodyClose run.trace = 1 ∧
      (∀ c, serverError.closeErr = some c →
        occurrences (Event.logf c) run.trace = 1 ∧ logCalls run.trace = 1) ∧
      (serverError.closeErr = none → logCalls run.trace = 0) ∧
      run.err = (if serverError.StatusCode = 202 then none
                 else some ("bugsnag/session.publish expected 202 response status, got HTTP "
                              ++ serverError.Status)) ∧
      ∃ clean, publish sampleExternals
          { config := sampleConfig "https://sessions.example",
            client := withCleanClose (stubClient serverError) } [1, 2]
          = some clean ∧ clean.err = run.err ∧ logCalls clean.trace = 0 :=
  publish_response_close sampleExternals
    { config := sampleConfig "https://sessions.example", client := stubClient serverError }
    [1, 2] [1, 2]
    { Method := "POST", URL := "https://sessions.example", Header := [], Body := [1, 2] }
    serverError (by decide) rfl rfl (by simp [NewRequest, sampleExternals, sampleConfig]) rfl

/-- C6, the claim as stated fails: with a non-empty batch, the non-empty
Endpoint `":"` and a Transport that answers every request with 202, `publish`
returns the request-construction error and hands nothing to the Transport. -/
theorem publish_accepted_payload_counterexample :
    ([1, 2] : List Nat) ≠ [] ∧ (sampleConfig ":").Endpoint ≠ "" ∧
    (∀ req, ∃ res, stubClient accepted req = .ok res ∧ res.StatusCode = 202) ∧
    publish specExternals { config := sampleConfig ":", client := stubClient accepted } [1, 2]
      = some { err := some ("bugsnag/sessions/publisher.publish unable to create request: "
                              ++ "parse \":\": missing protocol scheme"),
               mutex := false,
               trace := [Event.readEndpoint, Event.lock, Event.makePayload, Event.marshal,
                         Event.readEndpoint, Event.newRequest, Event.unlock] } ∧
    ¬ ∃ run, publish specExternals { config := sampleConfig ":", client := stubClient accepted }
        [1, 2] = some run ∧ run.err = none := by
  have hrun : publish specExternals
      { config := sampleConfig ":", client := stubClient accepted } [1, 2]
      = some { err := some ("bugsnag/sessions/publisher.publish unable to create request: "
                              ++ "parse \":\": missing protocol scheme"),
               mutex := false,
               trace := [Event.readEndpoint, Event.lock, Event.makePayload, Event.marshal,
                         Event.readEndpoint, Event.newRequest, Event.unlock] } := by
    simp [publish, publishLocked, specExternals, makeSessionPayload, sessionPayloadVersion,
      NewRequest, sampleConfig, mutexLock, mutexUnlock, requestError]
  refine ⟨by decide, by decide, fun req => ⟨accepted, rfl, rfl⟩, hrun, ?_⟩
  rintro ⟨run, h, herr⟩
  rw [hrun] at h
  simp only [Option.some.injEq] at h
  subst h
  simp at herr

/-- C6, amended: for every batch (the non-empty ones included), a non-empty
Endpoint that parses, a payload that serializes and a Transport answering 202,
`publish` returns nil; the one request handed to the Transport is a POST to
`config.Endpoint` whose body is the serialization of the payload built from
the batch, and a decoder inverting the serializer reads from that body a
payload with version `"1.0"` and the sessions of the batch, in the same number
and order. -/
theorem publish_accepted_payload {Session Meta : Type}
    (ext : Externals Session (sessionPayload Session Meta))
    (notifier : SessionTrackingConfiguration → Meta) (p : publisher) (sessions : List Session)
    (buf : Bytes)
    (hpayload : ext.makeSessionPayload = makeSessionPayload notifier)
    (hne : p.config.Endpoint ≠ "") (hfree : p.config.mutex = false)
    (hmarshal : ext.jsonMarshal (makeSessionPayload notifier sessions p.config) = .ok buf)
    (hurl : ext.urlError p.config.Endpoint = none)
    (h202 : ∀ req, ∃ res, p.client req = .ok res ∧ res.StatusCode = 202)
    (decode : Bytes → Option (sessionPayload Session Meta))
    (hdec : ∀ q b, ext.jsonMarshal q = .ok b → decode b = some q) :
    ∃ run req, publish ext p sessions = some run ∧ run.err = none ∧
      (∀ r, Event.clientDo r ∈ run.trace ↔ r = req) ∧ doCalls run.trace = 1 ∧
      req.Method = "POST" ∧ req.URL = p.config.Endpoint ∧
      ext.jsonMarshal (makeSessionPayload notifier sessions p.config) = .ok req.Body ∧
      ∃ q, decode req.Body = some q ∧ q.version = "1.0" ∧ q.sessions = sessions ∧
        q.sessions.length = sessions.length := by
  have hm : ext.jsonMarshal (ext.makeSessionPayload sessions p.config) = .ok buf := by
    rw [hpayload]; exact hmarshal
  have hreq : NewRequest ext.urlError "POST" p.config.Endpoint buf
      = .ok { Method := "POST", URL := p.config.Endpoint, Header := [], Body := buf } := by
    simp [NewRequest, hurl]
  obtain ⟨res, hdo, hcode⟩ := h202 (addHeaders
    { Method := "POST", URL := p.config.Endpoint, Header := [], Body := buf }
    (ext.PrefixedHeaders p.config.APIKey sessionPayloadVersion))
  refine ⟨_, addHeaders
    { Method := "POST", URL := p.config.Endpoint, Header := [], Body := buf }
    (ext.PrefixedHeaders p.config.APIKey sessionPayloadVersion),
    publish_of_enabled ext p sessions hne hfree, ?_, ?_, ?_, ?_, ?_, ?_, ?_⟩
  · rw [publishLocked_of_response ext p sessions buf _ res hm hreq hdo]
    simp [hcode]
  · intro r
    rw [publishLocked_of_response ext p sessions buf _ res hm hreq hdo]
    rcases closeBody_cases res with ⟨-, hc⟩ | ⟨c, -, hc⟩ <;> rw [hc] <;> simp
  · rw [publishLocked_of_response ext p sessions buf _ res hm hreq hdo]
    rcases closeBody_cases res with ⟨-, hc⟩ | ⟨c, -, hc⟩ <;> rw [hc] <;> simp [doCalls]
  · simp [addHeaders_eq]
  · simp [addHeaders_eq]
  · simpa [addHeaders_eq] using hmarshal
  · refine ⟨makeSessionPayload notifier sessions p.config, ?_, rfl, rfl, rfl⟩
    apply hdec
    simpa [addHeaders_eq] using hmarshal

/-- Witness of amended C6: the batch `[1, 2]` delivered to a stub answering
202, read back with `specDecode`. -/
theorem publish_accepted_payload_witness :
    ∃ run req, publish specExternals
        { config := sampleConfig "https://sessions.example", client := stubClient accepted }
        [1, 2] = some run ∧ run.err = none ∧
      (∀ r, Event.clientDo r ∈ run.trace ↔ r = req) ∧ doCalls run.trace = 1 ∧
      req.Method = "POST" ∧ req.URL = "https://sessions.example" ∧
      specExternals.jsonMarshal
        (makeSessionPayload (fun _ => ()) [1, 2] (sampleConfig "https://sessions.example"))
        = .ok req.Body ∧
      ∃ q, specDecode req.Body = some q ∧ q.version = "1.0" ∧ q.sessions = [1, 2] ∧
        q.sessions.length = [1, 2].length :=
  publish_accepted_payload specExternals (fun _ => ())
    { config := sampleConfig "https://sessions.example", client := stubClient accepted }
    [1, 2] [1, 2] rfl (by decide) rfl rfl (by simp [specExternals, sampleConfig])
    (fun _ => ⟨accepted, rfl, rfl⟩) specDecode
    (by
      intro q b h
      cases q with
      | mk version metadata sessions =>
        by_cases hv : version = "1.0"
        · simp [specExternals, hv] at h
          simp [specDecode, hv, h]
        · simp [specExternals, hv] at h)

/-- C9, the claim as stated fails: on a disabled endpoint no payload is built
and the one read of Endpoint happens with the lock not held; on a delivered
batch one payload is built, yet the first read of Endpoint precedes the lock. -/
theorem publish_reads_under_lock_counterexample :
    (∃ run, publish sampleExternals
        { config := sampleConfig "", client := stubClient accepted } [1, 2] = some run ∧
      occurrences Event.makePayload run.trace = 0 ∧ guardedReads false run.trace = false) ∧
    (∃ run, publish sampleExternals
        { config := sampleConfig "https://sessions.example", client := stubClient accepted }
        [1, 2] = some run ∧
      occurrences Event.makePayload run.trace = 1 ∧
      run.trace.take 2 = [Event.readEndpoint, Event.lock] ∧
      guardedReads false run.trace = false) := by
  constructor
  · exact ⟨{ err := none, mutex := false, trace := [Event.readEndpoint] }, rfl, rfl, rfl⟩
  · refine ⟨_, publish_of_enabled sampleExternals
      { config := sampleConfig "https://sessions.example", client := stubClient accepted }
      [1, 2] (by decide) rfl, ?_, ?_, ?_⟩ <;>
    simp [publishLocked, sampleExternals, NewRequest, sampleConfig, stubClient, closeBody,
      accepted, occurrences, guardedReads]

/-- C9, amended: every returning `publish` call starts with the disabled
check's read of Endpoint; on an empty Endpoint nothing else happens (no
payload, no lock); on a non-empty Endpoint the lock is then acquired, exactly
one payload is built, the payload construction and every later read of
Endpoint and APIKey happen while the lock is held, and the release is the
last step. -/
theorem publish_reads_under_lock {Session Payload : Type}
    (ext : Externals Session Payload) (p : publisher) (sessions : List Session)
    (hfree : p.config.mutex = false) :
    ∃ run rest, publish ext p sessions = some run ∧
      run.trace = Event.readEndpoint :: rest ∧
      guardedReads false rest = true ∧
      (p.config.Endpoint = "" → rest = []) ∧
      (p.config.Endpoint ≠ "" →
        occurrences Event.makePayload run.trace = 1 ∧
        occurrences Event.lock run.trace = 1 ∧
        occurrences Event.unlock run.trace = 1 ∧
        rest.head? = some Event.lock ∧ rest.getLast? = some Event.unlock) := by
  by_cases he : p.config.Endpoint = ""
  · refine ⟨{ err := none, mutex := p.config.mutex, trace := [Event.readEndpoint] }, [],
      by simp [publish, he], rfl, rfl, fun _ => rfl, fun h => absurd he h⟩
  · refine ⟨_, Event.lock :: ((publishLocked ext p sessions).2 ++ [Event.unlock]),
      publish_of_enabled ext p sessions he hfree, by simp, ?_, fun h => absurd h he, fun _ => ?_⟩
    · rcases publishLocked_cases ext p sessions with ⟨e, -, h⟩ | ⟨buf, e, -, -, h⟩ |
        ⟨buf, req0, e, -, -, -, h⟩ | ⟨buf, req0, res, -, -, -, h⟩
      · rw [h]; simp [guardedReads]
      · rw [h]; simp [guardedReads]
      · rw [h]; simp [guardedReads]
      · rw [h]
        rcases closeBody_cases res with ⟨-, hc⟩ | ⟨c, -, hc⟩ <;> rw [hc] <;>
          simp [guardedReads]
    · rcases publishLocked_cases ext p sessions with ⟨e, -, h⟩ | ⟨buf, e, -, -, h⟩ |
        ⟨buf, req0, e, -, -, -, h⟩ | ⟨buf, req0, res, -, -, -, h⟩
      · rw [h]; simp [occurrences]
      · rw [h]; simp [occurrences]
      · rw [h]; simp [occurrences]
      · rw [h]
        rcases closeBody_cases res with ⟨-, hc⟩ | ⟨c, -, hc⟩ <;> rw [hc] <;>
          simp [occurrences]

/-- Witness of amended C9: a delivered batch on a configuration whose lock is
free. -/
theorem publish_reads_under_lock_witness :
    ∃ run rest, publish sampleExternals
        { config := sampleConfig "https://sessions.example", client := stubClient accepted }
        [1, 2] = some run ∧
      run.trace = Event.readEndpoint :: rest ∧
      guardedReads false rest = true ∧
      ((sampleConfig "https://sessions.example").Endpoint = "" → rest = []) ∧
      ((sampleConfig "https://sessions.example").Endpoint ≠ "" →
        occurrences Event.makePayload run.trace = 1 ∧
        occurrences Event.lock run.trace = 1 ∧
        occurrences Event.unlock run.trace = 1 ∧
        rest.head? = some Event.lock ∧ rest.getLast? = some Event.unlock) :=
  publish_reads_under_lock sampleExternals
    { config := sampleConfig "https://sessions.example", client := stubClient accepted }
    [1, 2] rfl

/-- C10: every `publish` call entered with the lock free returns nil or the
error of exactly one of the four kinds, namely that of the first step that
fails in the order serialize, construct request, transmit, check status; no
later step runs after a failure (after an encoding error no request is built,
after an encoding or request-construction error the Transport is not invoked,
after a transport error no status is inspected and no body closed); and
errors of two different kinds never have the same value, so the kind is read
off the returned error. -/
theorem publish_error_taxonomy {Session Payload : Type}
    (ext : Externals Session Payload) (p : publisher) (sessions : List Session)
    (hfree : p.config.mutex = false) :
    ∃ run, publish ext p sessions = some run ∧
      run.err =
        (if p.config.Endpoint = "" then none
         else (firstFailure (ext.jsonMarshal (ext.makeSessionPayload sessions p.config))
            (fun buf => (NewRequest ext.urlError "POST" p.config.Endpoint buf).map
              (fun r => addHeaders r (ext.PrefixedHeaders p.config.APIKey "1.0")))
            p.client).map PublishError.message) ∧
      (∀ e, run.err = some (encodingError e) →
        occurrences Event.newRequest run.trace = 0 ∧ doCalls run.trace = 0 ∧
          occurrences Event.inspectStatus run.trace = 0) ∧
      (∀ e, run.err = some (requestError e) →
        doCalls run.trace = 0 ∧ occurrences Event.inspectStatus run.trace = 0) ∧
      (∀ e, run.err = some (transportError e) →
        occurrences Event.inspectStatus run.trace = 0 ∧
          occurrences Event.bodyClose run.trace = 0) ∧
      ∀ x y : PublishError, x.message = y.message → x.kind = y.kind := by
  have hkind : ∀ x y : PublishError, x.message = y.message → x.kind = y.kind := by
    rintro ⟨kx, dx⟩ ⟨ky, dy⟩ h
    cases kx <;> cases ky <;> simp only [PublishError.message] at h <;>
      first
        | rfl
        | exact absurd h (encodingError_ne_requestError _ _)
        | exact absurd h (encodingError_ne_transportError _ _)
        | exact absurd h (encodingError_ne_unexpectedStatusError _ _)
        | exact absurd h (requestError_ne_transportError _ _)
        | exact absurd h (requestError_ne_unexpectedStatusError _ _)
        | exact absurd h (transportError_ne_unexpectedStatusError _ _)
        | exact absurd h.symm (encodingError_ne_requestError _ _)
        | exact absurd h.symm (encodingError_ne_transportError _ _)
        | exact absurd h.symm (encodingError_ne_unexpectedStatusError _ _)
        | exact absurd h.symm (requestError_ne_transportError _ _)
        | exact absurd h.symm (requestError_ne_unexpectedStatusError _ _)
        | exact absurd h.symm (transportError_ne_unexpectedStatusError _ _)
  by_cases he : p.config.Endpoint = ""
  · refine ⟨{ err := none, mutex := p.config.mutex, trace := [Event.readEndpoint] },
      by simp [publish, he], by simp [he], ?_, ?_, ?_, hkind⟩ <;> intro e h <;> simp at h
  · refine ⟨_, publish_of_enabled ext p sessions he hfree, ?_, ?_, ?_, ?_, hkind⟩
    · rcases publishLocked_cases ext p sessions with ⟨e, h1, h⟩ | ⟨buf, e, h1, h2, h⟩ |
        ⟨buf, req0, e, h1, h2, h3, h⟩ | ⟨buf, req0, res, h1, h2, h3, h⟩
      · rw [h]; simp [he, h1, firstFailure, PublishError.message]
      · rw [h]; simp [he, h1, h2, firstFailure, PublishError.message, Except.map]
      · have h3b : p.client (addHeaders req0 (ext.PrefixedHeaders p.config.APIKey "1.0"))
            = .error e := h3
        rw [h]; simp [he, h1, h2, h3b, firstFailure, PublishError.message, Except.map]
      · have h3b : p.client (addHeaders req0 (ext.PrefixedHeaders p.config.APIKey "1.0"))
            = .ok res := h3
        rw [h]
        by_cases hs : res.StatusCode = 202 <;>
          simp [he, h1, h2, h3b, hs, firstFailure, PublishError.message, Except.map]
    · intro e0 herr
      rcases publishLocked_cases ext p sessions with ⟨e, -, h⟩ | ⟨buf, e, -, -, h⟩ |
        ⟨buf, req0, e, -, -, -, h⟩ | ⟨buf, req0, res, -, -, -, h⟩
      · rw [h]; simp [occurrences, doCalls]
      · rw [h] at herr
        exact absurd (Option.some.inj herr).symm (encodingError_ne_requestError _ _)
      · rw [h] at herr
        exact absurd (Option.some.inj herr).symm (encodingError_ne_transportError _ _)
      · rw [h] at herr
        by_cases hs : res.StatusCode = 202
        · simp [hs] at herr
        · simp only [hs, ne_eq, not_false_eq_true, if_true] at herr
          exact absurd (Option.some.inj herr).symm (encodingError_ne_unexpectedStatusError _ _)
    · intro e0 herr
      rcases publishLocked_cases ext p sessions with ⟨e, -, h⟩ | ⟨buf, e, -, -, h⟩ |
        ⟨buf, req0, e, -, -, -, h⟩ | ⟨buf, req0, res, -, -, -, h⟩
      · rw [h]; simp [occurrences, doCalls]
      · rw [h]; simp [occurrences, doCalls]
      · rw [h] at herr
        exact absurd (Option.some.inj herr).symm (requestError_ne_transportError _ _)
      · rw [h] at herr
        by_cases hs : res.StatusCode = 202
        · simp [hs] at herr
        · simp only [hs, ne_eq, not_false_eq_true, if_true] at herr
          exact absurd (Option.some.inj herr).symm (requestError_ne_unexpectedStatusError _ _)
    · intro e0 herr
      rcases publishLocked_cases ext p sessions with ⟨e, -, h⟩ | ⟨buf, e, -, -, h⟩ |
        ⟨buf, req0, e, -, -, -, h⟩ | ⟨buf, req0, res, -, -, -, h⟩
      · rw [h]; simp [occurrences]
      · rw [h]; simp [occurrences]
      · rw [h]; simp [occurrences]
      · rw [h] at herr
        by_cases hs : res.StatusCode = 202
        · simp [hs] at herr
        · simp only [hs, ne_eq, not_false_eq_true, if_true] at herr
          exact absurd (Option.some.inj herr).symm
            (transportError_ne_unexpectedStatusError _ _)

/-- Witness of C10: a batch that does not serialize, on a configuration whose
lock is free. -/
theorem publish_error_taxonomy_witness :
    ∃ run, publish sampleExternals
        { config := sampleConfig "https://sessions.example", client := stubClient accepted }
        [1, 2, 3, 4] = some run ∧
      run.err =
        (if (sampleConfig "https://sessions.example").Endpoint = "" then none
         else (firstFailure
            (sampleExternals.jsonMarshal (sampleExternals.makeSessionPayload [1, 2, 3, 4]
              (sampleConfig "https://sessions.example")))
            (fun buf => (NewRequest sampleExternals.urlError "POST"
                (sampleConfig "https://sessions.example").Endpoint buf).map
              (fun r => addHeaders r (sampleExternals.PrefixedHeaders
                (sampleConfig "https://sessions.example").APIKey "1.0")))
            (stubClient accepted)).map PublishError.message) ∧
      (∀ e, run.err = some (encodingError e) →
        occurrences Event.newRequest run.trace = 0 ∧ doCalls run.trace = 0 ∧
          occurrences Event.inspectStatus run.trace = 0) ∧
      (∀ e, run.err = some (requestError e) →
        doCalls run.trace = 0 ∧ occurrences Event.inspectStatus run.trace = 0) ∧
      (∀ e, run.err = some (transportError e) →
        occurrences Event.inspectStatus run.trace = 0 ∧
          occurrences Event.bodyClose run.trace = 0) ∧
      ∀ x y : PublishError, x.message = y.message → x.kind = y.kind :=
  publish_error_taxonomy sampleExternals
    { config := sampleConfig "https://sessions.example", client := stubClient accepted }
    [1, 2, 3, 4] rfl

end Sessions
